import Mathlib

/-!
Verification development for the podcast-recommendations backend.

The Python services are shallowly embedded in Lean: text is `List Char`,
Python ints are `Int`/`Nat`, Python floats that carry exact decimal values in
the source are modelled as exact rationals (`ℚ`), fallible dictionary access
and `None`-typed values are modelled with `Option`/`Except`, and the
`while`-loop of the transcript chunker is modelled with explicit fuel (the
loop has no other termination argument; `none` means the fuel ran out).
External collaborators (the LLM extraction oracle, the Google Books HTTP
call, the fuzzywuzzy scoring functions, HTTP image probing) are parameters
of the embedded functions, exactly at the call boundary the source uses.
-/

namespace PodcastRecs

/-! ## Python string / slicing primitives -/

/-- Adjust a Python slice index to an absolute position in a string of length
`n`, following CPython semantics: negative indices count from the end and are
clamped at `0`; non-negative indices are clamped at `n`. -/
def pyAdjIdx (n : Nat) (i : Int) : Nat :=
  if i < 0 then ((n : Int) + i).toNat else min i.toNat n

/-- Python slice `s[a:b]`. -/
def pySlice (l : List Char) (a b : Int) : List Char :=
  (l.take (pyAdjIdx l.length b)).drop (pyAdjIdx l.length a)

/-- Index of the rightmost occurrence of `c` in `l`, if any. -/
def lastIdxOf (c : Char) : List Char → Option Nat
  | [] => none
  | a :: rest =>
    match lastIdxOf c rest with
    | some j => some (j + 1)
    | none => if a == c then some 0 else none

/-- Python `s.rfind(c, a, b)` for a single-character needle: the highest index
of `c` inside the adjusted window, or `-1` when absent. -/
def pyRfindChar (l : List Char) (c : Char) (a b : Int) : Int :=
  let lo := pyAdjIdx l.length a
  let hi := pyAdjIdx l.length b
  match lastIdxOf c ((l.take hi).drop lo) with
  | none => -1
  | some j => ((lo + j : Nat) : Int)

/-- The six characters Python's `str.strip()` removes by default. -/
def isPySpace (c : Char) : Bool :=
  c == ' ' || c == '\t' || c == '\n' || c == Char.ofNat 11 || c == Char.ofNat 12 || c == '\r'

/-- Python `str.strip()` on the character list. -/
def pyStrip (l : List Char) : List Char :=
  ((l.dropWhile isPySpace).reverse.dropWhile isPySpace).reverse

/-- Python `str.strip()` on a `String`. -/
def pyStripS (s : String) : String :=
  ⟨pyStrip s.data⟩

/-- Python `str.lower()`, character-wise (the inputs at hand are ASCII, where
`Char.toLower` coincides with Python's lowering). -/
def pyLowerS (s : String) : String :=
  ⟨s.data.map Char.toLower⟩

/-- Python `str.upper()`, character-wise (ASCII inputs). -/
def pyUpperS (s : String) : String :=
  ⟨s.data.map Char.toUpper⟩

/-- Python truthiness of a string. -/
def truthyS (s : String) : Bool := s != ""

/-- Python truthiness of an optional string (`None` and `''` are falsy). -/
def truthyO : Option String → Bool
  | none => false
  | some s => truthyS s

/-- Python `a or b` on two optional strings: the left value when it is truthy,
otherwise the right value (even when the right value is falsy). -/
def pyOrO (a b : Option String) : Option String :=
  if truthyO a then a else b

/-! ## `YouTubeService.chunk_transcript`
(src/backend/app/services/youtube_service.py)

```
if len(transcript) <= chunk_size: return [transcript]
chunks = []; start = 0
while start < len(transcript):
    end = start + chunk_size
    if end < len(transcript):
        last_period = transcript.rfind('.', start, end)
        last_question = transcript.rfind('?', start, end)
        last_exclaim = transcript.rfind('!', start, end)
        break_point = max(last_period, last_question, last_exclaim)
        if break_point > start: end = break_point + 1
    chunks.append(transcript[start:end].strip())
    start = end - overlap if end < len(transcript) else end
return chunks
```

The `while` loop carries explicit fuel; `none` models a run that has not
terminated within the given fuel. -/

def chunkLoop (t : List Char) (chunkSize overlap : Nat) :
    Nat → Int → List (List Char) → Option (List (List Char))
  | 0, _, _ => none
  | fuel + 1, start, acc =>
    if start < (t.length : Int) then
      let end0 : Int := start + (chunkSize : Int)
      let e : Int :=
        if end0 < (t.length : Int) then
          let lastPeriod := pyRfindChar t '.' start end0
          let lastQuestion := pyRfindChar t '?' start end0
          let lastExclaim := pyRfindChar t '!' start end0
          let breakPoint := max lastPeriod (max lastQuestion lastExclaim)
          if breakPoint > start then breakPoint + 1 else end0
        else end0
      let piece := pyStrip (pySlice t start e)
      let start' : Int := if e < (t.length : Int) then e - (overlap : Int) else e
      chunkLoop t chunkSize overlap fuel start' (acc ++ [piece])
    else some acc

/-- `YouTubeService.chunk_transcript(transcript, chunk_size, overlap)`. -/
def chunk_transcript (t : List Char) (chunkSize overlap fuel : Nat) :
    Option (List (List Char)) :=
  if t.length ≤ chunkSize then some [t] else chunkLoop t chunkSize overlap fuel 0 []

/-! ## `ClaudeService` extraction dispatcher
(src/backend/app/services/claude_service.py)

`extract_recommendations` performs one LLM call per invocation and returns a
list of recommendation dicts; the call itself (network, prompt, JSON parsing)
is the external extraction oracle and is a parameter
`oracle : List Char → List OracleRec` of the embedding.  The embedded
dispatcher additionally records the list of transcripts handed to the oracle
(`calls`), which in the source is one `extract_recommendations` invocation
per element. -/

/-- A recommendation dict as returned by the oracle.  Only the `title` field
is inspected by the dispatcher (for cross-chunk dedup); the rest of the dict
is opaque payload.  The source reads `rec.get('title', '')`; title values are
assumed string-typed here. -/
structure OracleRec where
  title : String
  payload : String
  deriving DecidableEq, Repr

/-- Cross-chunk dedup of `extract_recommendations_from_chunks`:
`title = rec.get('title', '').lower().strip()`; keep the first occurrence of
each truthy key. -/
def dedupByTitle : List String → List OracleRec → List OracleRec
  | _, [] => []
  | seen, r :: rs =>
    let k := pyStripS (pyLowerS r.title)
    if truthyS k && !(seen.contains k) then
      r :: dedupByTitle (k :: seen) rs
    else
      dedupByTitle seen rs

/-- One entry of the `chunk_metadata` list built per chunk. -/
structure ChunkInfo where
  chunk_number : Nat
  total_chunks : Nat
  start_position : Nat
  end_position : Nat
  chunk_length : Nat
  first_50 : List Char
  last_50 : List Char
  word_count : Nat
  deriving DecidableEq, Repr

/-- Python `s[-50:]`. -/
def lastFifty (l : List Char) : List Char := l.drop (l.length - 50)

/-- Python `str.split()` with no argument: maximal runs of non-whitespace. -/
def pyWordCount (l : List Char) : Nat :=
  ((l.splitOnP isPySpace).filter (· ≠ [])).length

/-- Build the `chunk_metadata` entries:
`chunk_start_pos = sum(len(chunks[j]) for j in range(i))`,
`chunk_end_pos = chunk_start_pos + len(chunk)`. -/
def chunkInfos (total : Nat) : Nat → Nat → List (List Char) → List ChunkInfo
  | _, _, [] => []
  | pos, num, c :: cs =>
    { chunk_number := num, total_chunks := total, start_position := pos,
      end_position := pos + c.length, chunk_length := c.length,
      first_50 := c.take 50, last_50 := lastFifty c,
      word_count := pyWordCount c } :: chunkInfos total (pos + c.length) (num + 1) cs

/-- The processing-metadata dict.  `processing_mode` is `none` while absent
(the per-chunk aggregator does not set it; `extract_recommendations_smart`
adds it afterwards). -/
structure ProcMeta where
  processing_mode : Option String
  total_chunks : Nat
  total_characters_sent : Nat
  first_chunk_position : Nat
  first_chunk_first50 : List Char
  last_chunk_position : Nat
  last_chunk_last50 : List Char
  chunks : List (Nat × Nat × Nat × Nat)
  total_recommendations_found : Nat
  unique_recommendations : Nat
  deriving DecidableEq, Repr

/-- `ClaudeService.extract_recommendations_from_chunks(chunks, ...)`.
Returns `none` for an empty chunk list, where the source raises `IndexError`
at `chunk_metadata[0]`. -/
def extract_recommendations_from_chunks (chunks : List (List Char))
    (oracle : List Char → List OracleRec) : Option (List OracleRec × ProcMeta) :=
  match chunks with
  | [] => none
  | c0 :: rest =>
    let infos := chunkInfos (c0 :: rest).length 0 1 (c0 :: rest)
    let firstInfo := infos.head (by simp [infos, chunkInfos])
    let lastInfo := infos.getLast (by simp [infos, chunkInfos])
    let allRecs := (c0 :: rest).flatMap oracle
    let uniqueRecs := dedupByTitle [] allRecs
    let totalChars := (infos.map (·.chunk_length)).sum
    some (uniqueRecs,
      { processing_mode := none,
        total_chunks := (c0 :: rest).length,
        total_characters_sent := totalChars,
        first_chunk_position := firstInfo.start_position,
        first_chunk_first50 := firstInfo.first_50,
        last_chunk_position := lastInfo.start_position,
        last_chunk_last50 := lastInfo.last_50,
        chunks := infos.map (fun c =>
          (c.chunk_number, c.start_position, c.end_position, c.chunk_length)),
        total_recommendations_found := allRecs.length,
        unique_recommendations := uniqueRecs.length })

/-- Result of `extract_recommendations_smart`: the recommendation list, the
processing metadata, and the transcripts handed to the oracle, in order (one
`extract_recommendations` call each in the source). -/
structure SmartOut where
  recs : List OracleRec
  meta : ProcMeta
  calls : List (List Char)
  deriving DecidableEq, Repr

/-- `ClaudeService.extract_recommendations_smart(transcript, ...)`:
single-pass below 100,000 characters, otherwise
`chunk_transcript(transcript, chunk_size=100_000, overlap=2000)` plus one
oracle call per chunk.  `fuel` feeds the chunker loop; `none` models a run of
the chunker that has not terminated. -/
def extract_recommendations_smart (t : List Char)
    (oracle : List Char → List OracleRec) (fuel : Nat) : Option SmartOut :=
  if t.length < 100000 then
    let recommendations := oracle t
    some
      { recs := recommendations,
        meta :=
          { processing_mode := some "single_pass",
            total_chunks := 1,
            total_characters_sent := t.length,
            first_chunk_position := 0,
            first_chunk_first50 := t.take 50,
            last_chunk_position := 0,
            last_chunk_last50 := lastFifty t,
            chunks := [(1, 0, t.length, t.length)],
            total_recommendations_found := recommendations.length,
            unique_recommendations := recommendations.length },
        calls := [t] }
  else
    match chunk_transcript t 100000 2000 fuel with
    | none => none
    | some cs =>
      match extract_recommendations_from_chunks cs oracle with
      | none => none
      | some (recommendations, meta) =>
        some { recs := recommendations,
               meta := { meta with processing_mode := some "chunked" },
               calls := cs }

/-! ## `YouTubeService.get_transcript_with_verification`
(src/backend/app/services/youtube_service.py)

The transcript fetch itself is external; the embedding covers the
verification computation on the fetched segment list.  Segment timestamps
are Python floats carrying the values the transcript API reports; they are
modelled as exact rationals.  `round(x, 2)` on the stored per-gap values and
on the stored coverage numbers is display-only rounding and is omitted; the
fields the claims touch (`total_segments`, `character_count`,
`gaps_detected`, `is_complete`) are unaffected by it. -/

/-- One transcript segment `(text, start, duration)`. -/
structure Segment where
  text : List Char
  start : ℚ
  duration : ℚ
  deriving DecidableEq, Repr

/-- Gap scan over adjacent segments: a gap is recorded at pair index `i` when
`segments[i+1].start - (segments[i].start + segments[i].duration) > 2.0`;
each record is `(position, gap_seconds, time)`. -/
def gapsAux : Nat → List Segment → List (Nat × ℚ × ℚ)
  | _, [] => []
  | _, [_] => []
  | i, a :: b :: rest =>
    let currentEnd := a.start + a.duration
    let gap := b.start - currentEnd
    (if 2 < gap then [(i, gap, currentEnd)] else []) ++ gapsAux (i + 1) (b :: rest)

/-- Gap list of a segment sequence. -/
def gapsOf (segments : List Segment) : List (Nat × ℚ × ℚ) := gapsAux 0 segments

/-- The verification metadata dict attached to a fetched transcript. -/
structure TranscriptMeta where
  total_segments : Nat
  start_time : ℚ
  end_time : ℚ
  duration_covered_seconds : ℚ
  video_duration_seconds : Option ℚ
  coverage_percent : Option ℚ
  character_count : Nat
  word_count : Nat
  gaps_detected : Nat
  is_complete : Bool
  gaps : List (Nat × ℚ × ℚ)
  deriving DecidableEq, Repr

/-- The default segment is never read on the guarded non-empty path. -/
def emptySegment : Segment := { text := [], start := 0, duration := 0 }

/-- The verification computation of `get_transcript_with_verification`, for a
non-empty fetched segment list (the source returns `None` before this point
when the list is empty).  `videoDuration` is the external duration signal
(`None` when unavailable). -/
def verifyTranscript (segments : List Segment) (videoDuration : Option ℚ) :
    List Char × TranscriptMeta :=
  let totalSegments := segments.length
  let firstSegment := segments.headD emptySegment
  let lastSegment := segments.getLastD emptySegment
  let startTime := firstSegment.start
  let endTime := lastSegment.start + lastSegment.duration
  let durationCovered := endTime - startTime
  let fullTranscript := List.intercalate [' '] (segments.map (·.text))
  let charCount := fullTranscript.length
  let wordCount := pyWordCount fullTranscript
  let gaps := gapsOf segments
  let isComplete :=
    decide (10 < totalSegments) && decide (1000 < charCount) &&
      decide ((gaps.length : ℚ) < (totalSegments : ℚ) * (1 / 10))
  let coveragePercent : Option ℚ :=
    match videoDuration with
    | some d => if d ≠ 0 ∧ 0 < d then some (durationCovered / d * 100) else none
    | none => none
  (fullTranscript,
    { total_segments := totalSegments,
      start_time := startTime,
      end_time := endTime,
      duration_covered_seconds := durationCovered,
      video_duration_seconds := videoDuration,
      coverage_percent := coveragePercent,
      character_count := charCount,
      word_count := wordCount,
      gaps_detected := gaps.length,
      is_complete := isComplete,
      gaps := gaps.take 10 })

/-! ## `GoogleBooksService` pure helpers
(src/backend/app/services/google_books_service.py)

The HTTP search itself is external; the ISBN conversion and the URL builders
below are pure and embedded in full.  Python's `re.sub(r'\D', '', s)` keeps
decimal digits (`Char.isDigit` on the ASCII inputs at hand), and
`re.sub(r'[^0-9X]', '', s.upper())` keeps digits and `X`. -/

/-- Check character of the ISBN-10 checksum loop: weights `10 - i` over the
first nine digits, `check_digit = (11 - (sum mod 11)) mod 11`, `'X'` for
ten. -/
def isbn10CheckChar (base : List Char) : Char :=
  let checkSum := (List.zipWith (fun d w => (d.toNat - '0'.toNat) * w) base
    [10, 9, 8, 7, 6, 5, 4, 3, 2]).sum
  let checkDigit := (11 - checkSum % 11) % 11
  if checkDigit = 10 then 'X' else Char.ofNat ('0'.toNat + checkDigit)

/-- `GoogleBooksService._isbn13_to_isbn10(isbn13)`.  The `try` body cannot
raise: after digit-stripping every character is a digit, slicing never
fails, so the `except` branch is dead. -/
def isbn13_to_isbn10 (isbn13 : String) : Option String :=
  let digits := isbn13.data.filter Char.isDigit
  if "978".data.isPrefixOf digits then
    let isbn10Base := (digits.drop 3).take 9
    some ⟨isbn10Base ++ [isbn10CheckChar isbn10Base]⟩
  else
    none

/-- `re.sub(r'[^0-9X]', '', isbn.upper())`. -/
def cleanIsbn (isbn : String) : String :=
  ⟨(pyUpperS isbn).data.filter (fun c => c.isDigit || c == 'X')⟩

/-- `GoogleBooksService.get_amazon_image_url(isbn_10)`. -/
def get_amazon_image_url (isbn10 : String) : String :=
  "https://images-na.ssl-images-amazon.com/images/P/" ++ cleanIsbn isbn10 ++
    ".01._SCLZZZZZZZ_SX500_.jpg"

/-- `GoogleBooksService.get_fallback_image_url(isbn)`. -/
def get_fallback_image_url (isbn : String) : String :=
  "https://covers.openlibrary.org/b/isbn/" ++ cleanIsbn isbn ++ "-L.jpg"

/-! ## `BookEnrichmentService`
(src/backend/app/services/book_enrichment_service.py)

The mention dict's `title` / `author_creator` entries are three-valued:
absent, present-with-`None`, or present-with-a-string
(`Option (Option String)`, outer `none` = key absent).  `None.strip()`
raises `AttributeError`, modelled with `Except`.  The Google Books search
(`self.google_books.search_book`) and the fuzzywuzzy scores (`fuzz.ratio`,
`fuzz.partial_ratio`, both 0–100) are external and are parameters.  The
embedding additionally records the catalog queries issued. -/

/-- The one exception class the embedded paths can raise. -/
inductive PyErr where
  | attributeError
  deriving DecidableEq, Repr

/-- An extracted mention dict, restricted to the entries the service reads. -/
structure Mention where
  title : Option (Option String)
  author_creator : Option (Option String)
  deriving DecidableEq, Repr

/-- `book_data.get(key, '').strip()`: the default for an absent key is `''`,
a present `None` raises `AttributeError`, a present string is stripped. -/
def pyGetStrip (field : Option (Option String)) : Except PyErr String :=
  match field with
  | none => .ok ""
  | some none => .error .attributeError
  | some (some s) => .ok (pyStripS s)

/-- The metadata dict `_extract_book_metadata` produces (the value
`search_book` hands back).  Every key is always present; `Option` on a field
is the Python value `None`.  `author` is the string `', '.join(authors)`.
Numeric and rating fields unused by the service are carried opaquely as
optional strings. -/
structure GBook where
  google_books_id : Option String := none
  title : Option String := none
  subtitle : Option String := none
  authors : List String := []
  author : String := ""
  publisher : Option String := none
  published_date : Option String := none
  published_year : Option Int := none
  description : Option String := none
  isbn_10 : Option String := none
  isbn_13 : Option String := none
  page_count : Option Int := none
  categories : List String := []
  average_rating : Option String := none
  ratings_count : Option String := none
  image_url : Option String := none
  thumbnail_url : Option String := none
  preview_link : Option String := none
  info_link : Option String := none
  canonical_volume_link : Option String := none
  amazon_url : Option String := none
  deriving DecidableEq, Repr

/-- Placeholder titles rejected outright. -/
def titlePlaceholders : List String := ["not specified", "not mentioned", "unknown"]

/-- Placeholder authors normalized to `None`. -/
def authorPlaceholders : List String := ["not mentioned", "not specified", "unknown"]

/-- `BookEnrichmentService._is_good_match(original_title, original_author,
google_data)`.  `google_data.get('title', '')` yields the stored value, so a
stored `None` raises at `found_title.lower()`. -/
def is_good_match (originalTitle : String) (originalAuthor : Option String)
    (gd : GBook) (ratioFn pRatioFn : String → String → Nat) : Except PyErr Bool :=
  match gd.title with
  | none => .error .attributeError
  | some foundTitle =>
    let titleSimilarity := ratioFn (pyLowerS originalTitle) (pyLowerS foundTitle)
    if titleSimilarity < 70 then .ok false
    else
      match originalAuthor with
      | some a =>
        if truthyS a then
          let foundAuthorStr := pyLowerS (String.intercalate " " gd.authors)
          let authorSimilarity := pRatioFn (pyLowerS a) foundAuthorStr
          if authorSimilarity < 60 then .ok false else .ok true
        else .ok true
      | none => .ok true

/-- `BookEnrichmentService._has_required_fields(google_data)`: title, author
and at least one ISBN (the computed `has_image` / `has_amazon_url` flags are
not part of `required_fields_met`). -/
def has_required_fields (gd : GBook) : Bool :=
  truthyO gd.title && truthyS gd.author && (truthyO gd.isbn_10 || truthyO gd.isbn_13)

/-- The enriched record the service builds on acceptance. -/
structure Enriched where
  title : Option String
  author : String
  isbn : Option String
  isbn_10 : Option String
  isbn_13 : Option String
  coverImageUrl : Option String
  amazonUrl : Option String
  googleBooksId : Option String
  publisher : Option String
  publishedYear : Option Int
  pageCount : Option Int
  description : Option String
  categories : List String
  googleBooksUrl : Option String
  verified : Bool
  deriving DecidableEq, Repr

/-- The `enriched = {...}` dict literal. -/
def buildEnriched (gd : GBook) : Enriched :=
  { title := gd.title,
    author := gd.author,
    isbn := pyOrO gd.isbn_13 gd.isbn_10,
    isbn_10 := gd.isbn_10,
    isbn_13 := gd.isbn_13,
    coverImageUrl := gd.image_url,
    amazonUrl := gd.amazon_url,
    googleBooksId := gd.google_books_id,
    publisher := gd.publisher,
    publishedYear := gd.published_year,
    pageCount := gd.page_count,
    description := gd.description,
    categories := gd.categories,
    googleBooksUrl := gd.info_link,
    verified := true }

/-- The `if not enriched.get('coverImageUrl')` fallback block at the end of
`enrich_book_recommendation`. -/
def coverFallback (e : Enriched) : Enriched :=
  if truthyO e.coverImageUrl then e
  else if truthyO e.isbn_10 then
    { e with coverImageUrl := some (get_amazon_image_url (e.isbn_10.getD "")) }
  else if truthyO e.isbn_13 then
    match isbn13_to_isbn10 (e.isbn_13.getD "") with
    | some isbn10 =>
      if truthyS isbn10 then
        { e with coverImageUrl := some (get_amazon_image_url isbn10) }
      else
        { e with coverImageUrl := some (get_fallback_image_url (e.isbn_13.getD "")) }
    | none =>
      { e with coverImageUrl := some (get_fallback_image_url (e.isbn_13.getD "")) }
  else e

/-- The outcome of one enrichment call: the returned value (`none` models
Python `None`) and the catalog queries issued, in order. -/
structure EnrichOut where
  result : Option Enriched
  queries : List (String × Option String)
  deriving DecidableEq, Repr

/-- `BookEnrichmentService.enrich_book_recommendation(book_data)`,
parameterised by the catalog search `sb` and the fuzzywuzzy scores.  A raised
`AttributeError` propagates out of every enclosing step (the service has no
`try` block). -/
def enrich_book_recommendation (bd : Mention)
    (sb : String → Option String → Option GBook)
    (ratioFn pRatioFn : String → String → Nat) : Except PyErr EnrichOut :=
  match pyGetStrip bd.title with
  | .error e => .error e
  | .ok title =>
    match pyGetStrip bd.author_creator with
    | .error e => .error e
    | .ok authorRaw =>
      if !truthyS title || titlePlaceholders.contains (pyLowerS title) then
        .ok { result := none, queries := [] }
      else
        let author : Option String :=
          if authorPlaceholders.contains (pyLowerS authorRaw) then none else some authorRaw
        let queries := [(title, author)]
        match sb title author with
        | none => .ok { result := none, queries := queries }
        | some gd =>
          match is_good_match title author gd ratioFn pRatioFn with
          | .error e => .error e
          | .ok good =>
            if !good then .ok { result := none, queries := queries }
            else if !has_required_fields gd then .ok { result := none, queries := queries }
            else .ok { result := some (coverFallback (buildEnriched gd)), queries := queries }

/-! ## `create_book_aggregates`
(src/backend/scripts/create_book_aggregates.py)

The batch job fetches all persisted rows with `type = 'book'` and folds them
into `book_map`, an insertion-ordered dict.  The embedding takes the fetched
row list as input and produces the aggregate list in `book_map.values()`
order.  The JSON values in `extra_metadata` are carried as optional strings;
`metadata = book.extra_metadata or {}` maps a `None` blob to the empty dict
(every `get` yields `None`).  The aggregate's `id` is `str(uuid.uuid4())` in
the source, a fresh opaque token unused by any downstream logic; it is
modelled as the empty string. -/

/-- The `extra_metadata` JSON blob, restricted to the keys the script reads. -/
structure BookMeta where
  isbn_13 : Option String := none
  isbn13 : Option String := none
  isbn_10 : Option String := none
  isbn10 : Option String := none
  isbn : Option String := none
  author : Option String := none
  coverImageUrl : Option String := none
  cover_image_url : Option String := none
  description : Option String := none
  amazonUrl : Option String := none
  amazon_url : Option String := none
  googleBooksUrl : Option String := none
  google_books_url : Option String := none
  googleBooksId : Option String := none
  google_books_id : Option String := none
  primaryTheme : Option String := none
  primary_theme : Option String := none
  subthemes : Option String := none
  categories : Option String := none
  topics : Option String := none
  pageCount : Option String := none
  page_count : Option String := none
  publishedYear : Option String := none
  published_year : Option String := none
  publisher : Option String := none
  style : Option String := none
  fictionType : Option String := none
  fiction_type : Option String := none
  businessCategory : Option String := none
  business_category : Option String := none
  targetAudience : Option String := none
  target_audience : Option String := none
  deriving DecidableEq, Repr

/-- A fetched recommendation row (`id, title, recommended_by,
extra_metadata`). -/
structure BookRow where
  id : String
  title : String
  recommended_by : Option String
  extra_metadata : Option BookMeta
  deriving DecidableEq, Repr

/-- `metadata = book.extra_metadata or {}`. -/
def metaOf (b : BookRow) : BookMeta := b.extra_metadata.getD {}

/-- `unique_key = isbn_13 or isbn_10 or isbn or book.title` where
`isbn_13 = metadata.get('isbn_13') or metadata.get('isbn13')` and
`isbn_10 = metadata.get('isbn_10') or metadata.get('isbn10')`. -/
def uniqueKey (b : BookRow) : String :=
  (pyOrO (pyOrO (metaOf b).isbn_13 (metaOf b).isbn13)
    (pyOrO (pyOrO (metaOf b).isbn_10 (metaOf b).isbn10)
      (pyOrO (metaOf b).isbn (some b.title)))).getD b.title

/-- One aggregate record of `book_map`. -/
structure BookAgg where
  id : String
  isbn : Option String
  isbn_10 : Option String
  isbn_13 : Option String
  title : String
  author : Option String
  cover_image_url : Option String
  description : Option String
  amazon_url : Option String
  google_books_url : Option String
  google_books_id : Option String
  primary_theme : Option String
  subthemes : Option String
  categories : Option String
  topics : Option String
  page_count : Option String
  published_year : Option String
  publisher : Option String
  style : Option String
  fiction_type : Option String
  business_category : Option String
  target_audience : Option String
  recommended_by : List String
  recommendation_count : Nat
  recommendation_ids : List String
  deriving DecidableEq, Repr

/-- The aggregate created at the first occurrence of a key. -/
def initAgg (b : BookRow) : BookAgg :=
  let m := metaOf b
  { id := "",
    isbn := m.isbn,
    isbn_10 := pyOrO m.isbn_10 m.isbn10,
    isbn_13 := pyOrO m.isbn_13 m.isbn13,
    title := b.title,
    author := m.author,
    cover_image_url := pyOrO m.coverImageUrl m.cover_image_url,
    description := m.description,
    amazon_url := pyOrO m.amazonUrl m.amazon_url,
    google_books_url := pyOrO m.googleBooksUrl m.google_books_url,
    google_books_id := pyOrO m.googleBooksId m.google_books_id,
    primary_theme := pyOrO m.primaryTheme m.primary_theme,
    subthemes := m.subthemes,
    categories := m.categories,
    topics := m.topics,
    page_count := pyOrO m.pageCount m.page_count,
    published_year := pyOrO m.publishedYear m.published_year,
    publisher := m.publisher,
    style := m.style,
    fiction_type := pyOrO m.fictionType m.fiction_type,
    business_category := pyOrO m.businessCategory m.business_category,
    target_audience := pyOrO m.targetAudience m.target_audience,
    recommended_by := match b.recommended_by with
      | some r => if truthyS r then [r] else []
      | none => [],
    recommendation_count := 1,
    recommendation_ids := [b.id] }

/-- The update branch for a key already in `book_map`. -/
def updAgg (a : BookAgg) (b : BookRow) : BookAgg :=
  { a with
    recommended_by := match b.recommended_by with
      | some r =>
        if truthyS r && !(a.recommended_by.contains r) then a.recommended_by ++ [r]
        else a.recommended_by
      | none => a.recommended_by,
    recommendation_count := a.recommendation_count + 1,
    recommendation_ids := a.recommendation_ids ++ [b.id] }

/-- Lookup in the insertion-ordered dict (the value at the first matching
key). -/
def alFind : List (String × BookAgg) → String → Option BookAgg
  | [], _ => none
  | p :: ps, k => if p.1 == k then some p.2 else alFind ps k

/-- In-place value update of the insertion-ordered dict. -/
def alUpdate (m : List (String × BookAgg)) (k : String) (f : BookAgg → BookAgg) :
    List (String × BookAgg) :=
  m.map (fun p => if p.1 == k then (p.1, f p.2) else p)

/-- One iteration of the `for book in books` loop. -/
def processBook (m : List (String × BookAgg)) (b : BookRow) :
    List (String × BookAgg) :=
  match alFind m (uniqueKey b) with
  | none => m ++ [(uniqueKey b, initAgg b)]
  | some _ => alUpdate m (uniqueKey b) (fun a => updAgg a b)

/-- The fully folded `book_map`. -/
def buildMap (books : List BookRow) : List (String × BookAgg) :=
  books.foldl processBook []

/-- `create_book_aggregates`, from the fetched book rows to the inserted
aggregates (`book_map.values()` in insertion order; the target table is
cleared beforehand, so this list is the entire new table). -/
def create_book_aggregates (books : List BookRow) : List BookAgg :=
  (buildMap books).map (·.2)

/-! ## `validate_image_url`
(src/backend/scripts/test_cover_finder.py)

The two HTTP probes are external: `probe.head` is the `HEAD` response
(`none` models the request raising), carrying the status code, the
`content-type` header and the parsed `content-length` header
(`int(headers.get('content-length', 0))`); `probe.dims` is the decoded
`(width, height)` of the subsequent `GET` (`none` models that request or the
image decode raising).  Any exception lands in the `except` arm.  The reason
strings of the source are modelled as an inductive so the branches stay
distinguishable. -/

/-- The observable responses of the two image probes. -/
structure ImageProbe where
  head : Option (Int × String × Int)
  dims : Option (Nat × Nat)
  deriving DecidableEq, Repr

/-- The rejection/acceptance reasons of `validate_image_url`, one constructor
per `return` site. -/
inductive ImgReason where
  | httpStatus (code : Int)
  | placeholderGif
  | invalidType (ct : String)
  | tooSmall (size : Int)
  | knownPlaceholder43
  | dimsTooSmall (w h : Nat)
  | validImage
  | exceptionErr
  deriving DecidableEq, Repr

/-- Python `needle in haystack` on strings. -/
def pyInStr (needle haystack : String) : Bool :=
  haystack.data.tails.any (fun t => needle.data.isPrefixOf t)

/-- `validate_image_url(url)`: the `(is_valid, reason)` pair (the details
dict is diagnostic only). -/
def validate_image_url (probe : ImageProbe) : Bool × ImgReason :=
  match probe.head with
  | none => (false, .exceptionErr)
  | some (status, rawContentType, contentLength) =>
    if status ≠ 200 then (false, .httpStatus status)
    else
      let contentType := pyLowerS rawContentType
      if pyInStr "image/gif" contentType then (false, .placeholderGif)
      else if !(["image/jpeg", "image/jpg", "image/png"].contains contentType) then
        (false, .invalidType contentType)
      else if contentLength < 10000 then (false, .tooSmall contentLength)
      else if contentLength = 43 then (false, .knownPlaceholder43)
      else
        match probe.dims with
        | none => (false, .exceptionErr)
        | some (width, height) =>
          if width < 100 ∨ height < 100 then (false, .dimsTooSmall width height)
          else (true, .validImage)

/-! ## Concrete instances used by the claim theorems and witnesses -/

/-- Concrete segment list for the C7 witness: five one-character segments. -/
def wSegs : List Segment := List.replicate 5 { text := ['a'], start := 0, duration := 1 }

/-- A 30-character text on which the chunker's sentence-boundary backtracking
cycles: six letters, a period, then twenty-three letters. -/
def cycText : List Char := "aaaaaa.aaaaaaaaaaaaaaaaaaaaaaa".data

/-- The catalog candidate used by `C5_counterexample`: a metadata dict whose
`title` value is `None` (as `_extract_book_metadata` produces when the volume
info carries no title). -/
def gdNoneTitle : GBook := {}

/-- The catalog candidate used by the C5 witness: full required fields, no
cover image, no purchase link. -/
def gdGood : GBook :=
  { title := some "Deep Work", authors := ["Cal Newport"], author := "Cal Newport",
    isbn_13 := some "9781455586691" }

/-- A catalog candidate with title and author but no ISBN. -/
def gdNoIsbn : GBook :=
  { title := some "Deep Work", authors := ["Cal Newport"], author := "Cal Newport" }

/-- The mention used by the C5 witness. -/
def mGood : Mention := ⟨some (some "Deep Work"), some (some "Cal Newport")⟩

/-- A constant perfect fuzzy score. -/
def score100 : String → String → Nat := fun _ _ => 100

/-- An ISBN-less row titled `"A"`. -/
def caseRowA : BookRow :=
  { id := "id1", title := "A", recommended_by := some "Alice", extra_metadata := none }

/-- An ISBN-less row titled `"a"`, differing from `caseRowA` only in case. -/
def caseRowB : BookRow :=
  { id := "id2", title := "a", recommended_by := some "Bob", extra_metadata := none }

/-- A row carrying an `isbn_13`, for the C3 witness. -/
def caseRow13 : BookRow :=
  { id := "id3", title := "Deep Work", recommended_by := some "Carol",
    extra_metadata := some { isbn_13 := some "9781455586691" } }

/-! ## Claim C9 -/

/-- C9: the dedicated reject branch for an exactly-43-byte response in
`validate_image_url` is unreachable: a content-length of 43 is below the
10,000-byte minimum-size check that precedes it, so no probe outcome ever
produces the reason `Known placeholder (43 bytes)`. -/
theorem C9_placeholder43_unreachable (probe : ImageProbe) :
    (validate_image_url probe).2 ≠ ImgReason.knownPlaceholder43 := by
  obtain ⟨head, dims⟩ := probe
  rcases head with _ | ⟨status, rawContentType, contentLength⟩
  · simp [validate_image_url]
  · simp only [validate_image_url]
    split_ifs with h1 h2 h3 h4 h5
    · simp
    · simp
    · simp
    · simp
    · omega
    · rcases dims with _ | ⟨w, h⟩
      · simp
      · dsimp only
        split_ifs <;> simp

/-! ## Claim C7 -/

/-- C7: for every non-empty segment list, the verification report's
`is_complete` is true iff `total_segments > 10` and `character_count > 1000`
and `gaps_detected < 0.1 * total_segments`; in particular a report with five
segments is never complete. -/
theorem C7_is_complete_iff (segments : List Segment) (videoDuration : Option ℚ)
    (hne : segments ≠ []) :
    ((verifyTranscript segments videoDuration).2.is_complete = true ↔
      (10 < (verifyTranscript segments videoDuration).2.total_segments ∧
        1000 < (verifyTranscript segments videoDuration).2.character_count ∧
        ((verifyTranscript segments videoDuration).2.gaps_detected : ℚ) <
          ((verifyTranscript segments videoDuration).2.total_segments : ℚ) * (1 / 10))) ∧
    ((verifyTranscript segments videoDuration).2.total_segments = 5 →
      (verifyTranscript segments videoDuration).2.is_complete = false) := by
  constructor
  · simp [verifyTranscript, Bool.and_eq_true, decide_eq_true_eq, and_assoc]
  · intro h5
    simp only [verifyTranscript] at h5 ⊢
    rw [h5]
    simp only [Bool.and_eq_false_iff]
    left; left
    rw [decide_eq_false_iff_not]
    omega

/-- Witness for C7 at a concrete five-segment transcript. -/
theorem C7_witness :
    (((verifyTranscript wSegs none).2.is_complete = true ↔
      (10 < (verifyTranscript wSegs none).2.total_segments ∧
        1000 < (verifyTranscript wSegs none).2.character_count ∧
        ((verifyTranscript wSegs none).2.gaps_detected : ℚ) <
          ((verifyTranscript wSegs none).2.total_segments : ℚ) * (1 / 10))) ∧
    ((verifyTranscript wSegs none).2.total_segments = 5 →
      (verifyTranscript wSegs none).2.is_complete = false)) ∧
    (verifyTranscript wSegs none).2.total_segments = 5 := by
  refine ⟨C7_is_complete_iff wSegs none (by simp [wSegs]), ?_⟩
  simp [verifyTranscript, wSegs]

/-! ## Claim C6 -/

/-- C6 counterexample: the conversion strips non-digit characters before the
prefix test, so an input that does not start with `978` (here it starts with
the letter `x`) still converts instead of returning `None`; the claim's
"returns null for every input not starting with prefix 978 and for malformed
input" is therefore false as stated. -/
theorem C6_counterexample :
    isbn13_to_isbn10 "x9780000000002" = some "0000000000" ∧
    "978".data.isPrefixOf "x9780000000002".data = false := by decide

/-- C6 amended: the conversion returns `None` exactly when the digit-stripped
input does not start with `978`; when the digits are `978` followed by `ds`
it returns the first nine digits of `ds` followed by the check character
`(11 - (weighted sum mod 11)) mod 11` (weights 10 down to 2, `'X'` for ten);
and for a 13-digit `978` input the result is ten characters long and its last
character equals the check character recomputed from its first nine digits. -/
theorem C6_isbn_conversion (s : String) :
    (¬ "978".data.isPrefixOf (s.data.filter Char.isDigit) = true →
      isbn13_to_isbn10 s = none) ∧
    (∀ ds : List Char, s.data.filter Char.isDigit = '9' :: '7' :: '8' :: ds →
      isbn13_to_isbn10 s = some ⟨ds.take 9 ++ [isbn10CheckChar (ds.take 9)]⟩) ∧
    (∀ ds : List Char, s.data.filter Char.isDigit = '9' :: '7' :: '8' :: ds →
      10 ≤ ds.length →
      ∃ out : String, isbn13_to_isbn10 s = some out ∧ out.data.length = 10 ∧
        out.data.getLast? = some (isbn10CheckChar (out.data.take 9))) := by
  refine ⟨?_, ?_, ?_⟩
  · intro h
    simp only [isbn13_to_isbn10]
    rw [if_neg h]
  · intro ds hds
    simp only [isbn13_to_isbn10, hds]
    rw [if_pos (by simp [List.IsPrefix])]
    simp
  · intro ds hds hlen
    have htake : (ds.take 9).length = 9 := by
      rw [List.length_take]
      omega
    refine ⟨⟨ds.take 9 ++ [isbn10CheckChar (ds.take 9)]⟩, ?_, ?_, ?_⟩
    · simp only [isbn13_to_isbn10, hds]
      rw [if_pos (by simp [List.IsPrefix])]
      simp
    · simp [htake]
    · have h9 : (ds.take 9 ++ [isbn10CheckChar (ds.take 9)]).take 9 = ds.take 9 := by
        rw [List.take_append_eq_append_take, htake]
        simp
      simp [h9]

/-- Witness for C6: the known ISBN-13 `9780143127550` converts to
`0143127551`, and a `979`-prefixed input returns `None` through the amended
prefix condition. -/
theorem C6_witness :
    isbn13_to_isbn10 "9780143127550" = some "0143127551" ∧
    isbn13_to_isbn10 "9790000000000" = none := by
  constructor
  · have h := (C6_isbn_conversion "9780143127550").2.1 "0143127550".data (by decide)
    rw [h]
    decide
  · exact (C6_isbn_conversion "9790000000000").1 (by decide)

/-! ## Claim C4 -/

/-- With `chunk_size = 10` and `overlap = 5` the loop on `cycText` reaches
`start = 2`, cuts at the period (index 6, so `end = 7`), and sets
`start = 7 - 5 = 2` again: one full iteration returns to the same state. -/
theorem cycText_step (fuel : Nat) (acc : List (List Char)) :
    chunkLoop cycText 10 5 (fuel + 1) 2 acc =
      chunkLoop cycText 10 5 fuel 2 (acc ++ [pyStrip (pySlice cycText 2 7)]) := by
  have hlen : cycText.length = 30 := by decide
  have hp : pyRfindChar cycText '.' 2 12 = 6 := by decide
  have hq : pyRfindChar cycText '?' 2 12 = -1 := by decide
  have he : pyRfindChar cycText '!' 2 12 = -1 := by decide
  simp only [chunkLoop, hlen]
  norm_num [hp, hq, he]

/-- From the cycling state the loop never terminates, whatever the fuel. -/
theorem cycText_loop_diverges : ∀ fuel acc, chunkLoop cycText 10 5 fuel 2 acc = none := by
  intro fuel
  induction fuel with
  | zero => intro acc; rfl
  | succ n ih =>
    intro acc
    rw [cycText_step]
    exact ih _

/-- C4: the source performs no argument validation and its termination is not
guaranteed.  With `overlap = 5 ≥ chunk_size = 2` on a two-character text it
returns `['ab']` instead of failing fast; an empty text yields the
single empty chunk `['']`; and on `cycText` with the valid parameters
`overlap = 5 < chunk_size = 10` the loop runs forever (the embedded loop
returns `none` for every fuel). -/
theorem C4_chunker_contract_violations :
    chunk_transcript "ab".data 2 5 0 = some ["ab".data] ∧
    chunk_transcript ([] : List Char) 5 3 0 = some [[]] ∧
    ∀ fuel, chunk_transcript cycText 10 5 fuel = none := by
  refine ⟨by decide, by decide, ?_⟩
  intro fuel
  have hlen : cycText.length = 30 := by decide
  rw [chunk_transcript, if_neg (by omega)]
  match fuel with
  | 0 => rfl
  | n + 1 =>
    have hp : pyRfindChar cycText '.' 0 10 = 6 := by decide
    have hq : pyRfindChar cycText '?' 0 10 = -1 := by decide
    have he : pyRfindChar cycText '!' 0 10 = -1 := by decide
    have hstep : chunkLoop cycText 10 5 (n + 1) 0 [] =
        chunkLoop cycText 10 5 n 2 [pyStrip (pySlice cycText 0 7)] := by
      simp only [chunkLoop, hlen]
      norm_num [hp, hq, he]
    rw [hstep, cycText_loop_diverges]

/-! ## Claim C10 -/

/-- C10: `enrich_book_recommendation` is not total over mention dicts.  A
`title` or `author_creator` key bound to `None` raises `AttributeError` at
`.strip()` instead of returning `None`; conversely any normally returned
value can only arise when both keys are absent or string-valued. -/
theorem C10_none_valued_keys_raise (bd : Mention)
    (sb : String → Option String → Option GBook)
    (ratioFn pRatioFn : String → String → Nat) :
    (bd.title = some none →
      enrich_book_recommendation bd sb ratioFn pRatioFn = .error .attributeError) ∧
    (bd.title ≠ some none → bd.author_creator = some none →
      enrich_book_recommendation bd sb ratioFn pRatioFn = .error .attributeError) ∧
    (∀ out, enrich_book_recommendation bd sb ratioFn pRatioFn = .ok out →
      bd.title ≠ some none ∧ bd.author_creator ≠ some none) := by
  obtain ⟨tf, af⟩ := bd
  rcases tf with _ | _ | t <;> rcases af with _ | _ | a <;>
    simp [enrich_book_recommendation, pyGetStrip]

/-- Witness for C10: a concrete `None`-valued `title` raises, a concrete
`None`-valued `author_creator` raises, and a concrete fully-absent mention is
rejected normally (so its keys are indeed not `None`-valued). -/
theorem C10_witness :
    enrich_book_recommendation ⟨some none, none⟩ (fun _ _ => none)
        (fun _ _ => 0) (fun _ _ => 0) = .error .attributeError ∧
    enrich_book_recommendation ⟨none, some none⟩ (fun _ _ => none)
        (fun _ _ => 0) (fun _ _ => 0) = .error .attributeError ∧
    ((⟨none, none⟩ : Mention).title ≠ some none ∧
      (⟨none, none⟩ : Mention).author_creator ≠ some none) := by
  refine ⟨?_, ?_, ?_⟩
  · exact (C10_none_valued_keys_raise ⟨some none, none⟩ (fun _ _ => none)
      (fun _ _ => 0) (fun _ _ => 0)).1 rfl
  · exact (C10_none_valued_keys_raise ⟨none, some none⟩ (fun _ _ => none)
      (fun _ _ => 0) (fun _ _ => 0)).2.1 (by simp) rfl
  · exact (C10_none_valued_keys_raise ⟨none, none⟩ (fun _ _ => none)
      (fun _ _ => 0) (fun _ _ => 0)).2.2 { result := none, queries := [] } rfl

/-! ## Claim C8 -/

/-- C8: over string-or-absent mention fields, an empty or placeholder title
(`"not specified"`, `"not mentioned"`, `"unknown"`, case-insensitively) makes
`enrich_book_recommendation` return `None` with no catalog query issued; and
when the title passes but the stripped author is such a placeholder, the one
catalog query issued carries author `None`. -/
theorem C8_placeholder_rejection (bd : Mention)
    (sb : String → Option String → Option GBook)
    (ratioFn pRatioFn : String → String → Nat) :
    (∀ t a, pyGetStrip bd.title = .ok t → pyGetStrip bd.author_creator = .ok a →
      (truthyS t = false ∨ titlePlaceholders.contains (pyLowerS t) = true) →
      enrich_book_recommendation bd sb ratioFn pRatioFn =
        .ok { result := none, queries := [] }) ∧
    (∀ t a, pyGetStrip bd.title = .ok t → pyGetStrip bd.author_creator = .ok a →
      truthyS t = true → titlePlaceholders.contains (pyLowerS t) = false →
      authorPlaceholders.contains (pyLowerS a) = true →
      ∀ out, enrich_book_recommendation bd sb ratioFn pRatioFn = .ok out →
        out.queries = [(t, none)]) := by
  constructor
  · intro t a ht ha hrej
    simp only [enrich_book_recommendation, ht, ha]
    rw [if_pos]
    rcases hrej with h | h
    · simp only [h, Bool.not_false, Bool.true_or]
    · simp only [h, Bool.or_true]
  · intro t a ht ha htr hplc haplc out hout
    simp only [enrich_book_recommendation, ht, ha] at hout
    rw [if_neg (by simp [htr]; simpa using hplc)] at hout
    rw [if_pos haplc] at hout
    rcases hsb : sb t none with _ | gd <;> simp only [hsb] at hout
    · cases hout
      rfl
    · rcases hgm : is_good_match t none gd ratioFn pRatioFn with e | good <;>
        simp only [hgm] at hout
      · cases hout
      · split_ifs at hout <;> (cases hout; rfl)

/-- Witness for C8: a `"Not specified"` title is rejected with no query, and
an `"Unknown"` author is normalized to `None` in the single query issued. -/
theorem C8_witness :
    enrich_book_recommendation ⟨some (some "Not specified"), none⟩ (fun _ _ => none)
        (fun _ _ => 0) (fun _ _ => 0) = .ok { result := none, queries := [] } ∧
    ({ result := none, queries := [("Deep Work", none)] } : EnrichOut).queries =
      [("Deep Work", none)] := by
  constructor
  · exact (C8_placeholder_rejection ⟨some (some "Not specified"), none⟩ (fun _ _ => none)
      (fun _ _ => 0) (fun _ _ => 0)).1 "Not specified" "" (by rfl) rfl
      (Or.inr (by decide))
  · exact (C8_placeholder_rejection ⟨some (some "Deep Work"), some (some "Unknown")⟩
      (fun _ _ => none) (fun _ _ => 0) (fun _ _ => 0)).2 "Deep Work" "Unknown"
      (by rfl) (by rfl) (by decide) (by decide) (by decide)
      { result := none, queries := [("Deep Work", none)] } (by rfl)

/-! ## Claim C5 -/

/-- The cover-image fallback only ever changes the `coverImageUrl` field. -/
theorem coverFallback_preserves (e : Enriched) :
    (coverFallback e).title = e.title ∧ (coverFallback e).author = e.author ∧
    (coverFallback e).isbn_10 = e.isbn_10 ∧ (coverFallback e).isbn_13 = e.isbn_13 ∧
    (coverFallback e).verified = e.verified := by
  unfold coverFallback
  split_ifs with h1 h2 h3
  · exact ⟨rfl, rfl, rfl, rfl, rfl⟩
  · exact ⟨rfl, rfl, rfl, rfl, rfl⟩
  · rcases hx : isbn13_to_isbn10 (e.isbn_13.getD "") with _ | x <;> simp only [hx]
    · exact ⟨trivial, trivial, trivial, trivial, trivial⟩
    · split_ifs <;> exact ⟨rfl, rfl, rfl, rfl, rfl⟩
  · exact ⟨rfl, rfl, rfl, rfl, rfl⟩

/-- Inversion: a non-`None` enrichment result passes the required-fields
check on the catalog candidate and is the cover-fallback of the record built
from it. -/
theorem enrich_ok_some_inversion (bd : Mention)
    (sb : String → Option String → Option GBook)
    (ratioFn pRatioFn : String → String → Nat) (out : EnrichOut) (e : Enriched)
    (hok : enrich_book_recommendation bd sb ratioFn pRatioFn = .ok out)
    (hres : out.result = some e) :
    ∃ t a gd, sb t a = some gd ∧ has_required_fields gd = true ∧
      e = coverFallback (buildEnriched gd) := by
  simp only [enrich_book_recommendation] at hok
  rcases hT : pyGetStrip bd.title with eT | t <;> simp only [hT] at hok
  · cases hok
  rcases hA : pyGetStrip bd.author_creator with eA | a <;> simp only [hA] at hok
  · cases hok
  set author := (if authorPlaceholders.contains (pyLowerS a) = true
    then none else some a) with hauth
  split_ifs at hok with hrej
  · cases hok
    simp at hres
  rcases hsb : sb t author with _ | gd <;> simp only [hsb] at hok
  · cases hok
    simp at hres
  rcases hgm : is_good_match t author gd ratioFn pRatioFn with eG | good <;>
    simp only [hgm] at hok
  · cases hok
  split_ifs at hok with hgood hreq
  · cases hok
    simp at hres
  · cases hok
    simp at hres
  · cases hok
    simp only at hres
    refine ⟨t, _, gd, hsb, ?_, ?_⟩
    · simpa using hreq
    · exact (Option.some_injective _ hres.symm)

/-- C5 amended: a non-`None` result of `enrich_book_recommendation` always
carries a non-empty title, a non-empty author, at least one ISBN and
`verified = true`; when every candidate the catalog can return fails the
required-fields check, every normally returned result is `None`; and the
required-fields check is independent of the candidate's cover image and
purchase link.  (A candidate whose `title` value is `None` instead raises
`AttributeError`, the correction recorded by `C5_counterexample`.) -/
theorem C5_enrichment_guarantees :
    (∀ (bd : Mention) (sb : String → Option String → Option GBook)
      (ratioFn pRatioFn : String → String → Nat) (out : EnrichOut) (e : Enriched),
      enrich_book_recommendation bd sb ratioFn pRatioFn = .ok out →
      out.result = some e →
      (∃ ts, e.title = some ts ∧ ts ≠ "") ∧ e.author ≠ "" ∧
        (truthyO e.isbn_10 = true ∨ truthyO e.isbn_13 = true) ∧ e.verified = true) ∧
    (∀ (bd : Mention) (sb : String → Option String → Option GBook)
      (ratioFn pRatioFn : String → String → Nat) (out : EnrichOut),
      (∀ t a gd, sb t a = some gd → has_required_fields gd = false) →
      enrich_book_recommendation bd sb ratioFn pRatioFn = .ok out →
      out.result = none) ∧
    (∀ (gd : GBook) (img az : Option String),
      has_required_fields { gd with image_url := img, amazon_url := az } =
        has_required_fields gd) := by
  refine ⟨?_, ?_, ?_⟩
  · intro bd sb ratioFn pRatioFn out e hok hres
    obtain ⟨t, a, gd, hsb, hreq, he⟩ :=
      enrich_ok_some_inversion bd sb ratioFn pRatioFn out e hok hres
    subst he
    obtain ⟨hti, hau, h10, h13, hver⟩ := coverFallback_preserves (buildEnriched gd)
    simp only [has_required_fields, Bool.and_eq_true, Bool.or_eq_true] at hreq
    obtain ⟨⟨htitle, hauthor⟩, hisbn⟩ := hreq
    refine ⟨?_, ?_, ?_, ?_⟩
    · rw [hti]
      show ∃ ts, gd.title = some ts ∧ ts ≠ ""
      rcases hgt : gd.title with _ | s
      · rw [hgt] at htitle
        simp [truthyO] at htitle
      · rw [hgt] at htitle
        exact ⟨s, rfl, by simpa [truthyO, truthyS] using htitle⟩
    · rw [hau]
      show gd.author ≠ ""
      simpa [truthyS] using hauthor
    · rw [h10, h13]
      exact hisbn
    · rw [hver]
      rfl
  · intro bd sb ratioFn pRatioFn out hall hok
    simp only [enrich_book_recommendation] at hok
    rcases hT : pyGetStrip bd.title with eT | t <;> simp only [hT] at hok
    · cases hok
    rcases hA : pyGetStrip bd.author_creator with eA | a <;> simp only [hA] at hok
    · cases hok
    set author := (if authorPlaceholders.contains (pyLowerS a) = true
      then none else some a) with hauth
    split_ifs at hok with hrej
    · cases hok
      rfl
    rcases hsb : sb t author with _ | gd <;> simp only [hsb] at hok
    · cases hok
      rfl
    rcases hgm : is_good_match t author gd ratioFn pRatioFn with eG | good <;>
      simp only [hgm] at hok
    · cases hok
    split_ifs at hok with hgood hreq
    · cases hok
      rfl
    · cases hok
      rfl
    · exfalso
      have := hall _ _ _ hsb
      simp only [this] at hreq
      simp at hreq
  · intro gd img az
    rfl

/-- C5 counterexample: a catalog candidate with a `None` title makes
`enrich_book_recommendation` raise `AttributeError` (at
`found_title.lower()` inside `_is_good_match`) instead of rejecting the
mention with `None`, so "a catalog candidate missing any of title, author,
or every ISBN is rejected (enrich returns null)" is false as stated. -/
theorem C5_counterexample :
    enrich_book_recommendation ⟨some (some "Deep Work"), none⟩
      (fun _ _ => some gdNoneTitle) (fun _ _ => 0) (fun _ _ => 0) =
      .error .attributeError := by rfl

/-- Witness for C5 at concrete inputs: an accepted candidate without cover
image or purchase link yields a verified record with title, author and ISBN;
a candidate without any ISBN is rejected with `None`; and the required-fields
check ignores the image and link fields. -/
theorem C5_witness :
    (∃ out e, enrich_book_recommendation mGood (fun _ _ => some gdGood)
        score100 score100 = .ok out ∧ out.result = some e ∧
      ((∃ ts, e.title = some ts ∧ ts ≠ "") ∧ e.author ≠ "" ∧
        (truthyO e.isbn_10 = true ∨ truthyO e.isbn_13 = true) ∧ e.verified = true)) ∧
    (∃ out, enrich_book_recommendation mGood (fun _ _ => some gdNoIsbn)
        score100 score100 = .ok out ∧ out.result = none) ∧
    has_required_fields { gdGood with image_url := some "x", amazon_url := some "y" } =
      has_required_fields gdGood := by
  refine ⟨⟨_, _, rfl, rfl, ?_⟩, ⟨_, rfl, ?_⟩, ?_⟩
  · exact C5_enrichment_guarantees.1 mGood (fun _ _ => some gdGood)
      score100 score100 _ _ rfl rfl
  · exact C5_enrichment_guarantees.2.1 mGood (fun _ _ => some gdNoIsbn)
      score100 score100 _ (fun t a gd h => by cases h; rfl) rfl
  · exact C5_enrichment_guarantees.2.2 gdGood (some "x") (some "y")

/-! ## Claim C3 -/

/-- Lookup after appending one fresh entry at the back of the dict. -/
theorem alFind_append_single (m : List (String × BookAgg)) (kNew : String)
    (x : BookAgg) (k : String) :
    alFind (m ++ [(kNew, x)]) k =
      match alFind m k with
      | some a => some a
      | none => if kNew == k then some x else none := by
  induction m with
  | nil => by_cases h : (kNew == k) = true <;> simp [alFind, h]
  | cons p ps ih =>
    by_cases hp : (p.1 == k) = true <;>
      simp [alFind, hp, ih]

/-- Lookup after the in-place value update of the dict. -/
theorem alFind_alUpdate (m : List (String × BookAgg)) (kUpd : String)
    (f : BookAgg → BookAgg) (k : String) :
    alFind (alUpdate m kUpd f) k =
      if kUpd == k then (alFind m k).map f else alFind m k := by
  induction m with
  | nil => by_cases h : (kUpd == k) = true <;> simp [alFind, alUpdate, h]
  | cons p ps ih =>
    simp only [alUpdate, List.map_cons, beq_iff_eq] at ih ⊢
    by_cases hpu : p.1 = kUpd <;> by_cases hpk : p.1 = k
    · have huk : kUpd = k := by rw [← hpu, hpk]
      simp [alFind, hpu, hpk, huk]
    · have huk : ¬ kUpd = k := by
        rw [← hpu]
        exact hpk
      simp [alFind, hpu, hpk, huk, ih]
    · have huk : ¬ kUpd = k := by
        intro h
        exact hpu (hpk.trans h.symm)
      have huk' : ¬ k = kUpd := fun h => huk h.symm
      simp [alFind, hpu, hpk, huk, huk']
    · simp [alFind, hpu, hpk, ih]

/-- One loop iteration, seen through lookup. -/
theorem alFind_processBook (acc : List (String × BookAgg)) (b : BookRow) (k : String) :
    alFind (processBook acc b) k =
      if uniqueKey b = k then
        match alFind acc k with
        | none => some (initAgg b)
        | some a => some (updAgg a b)
      else alFind acc k := by
  unfold processBook
  rcases h : alFind acc (uniqueKey b) with _ | a
  · rw [alFind_append_single]
    by_cases hk : uniqueKey b = k
    · subst hk
      rw [h]
      simp
    · rw [if_neg hk]
      rcases hk2 : alFind acc k with _ | a2
      · simp [show (uniqueKey b == k) = false by simpa using hk]
      · simp
  · rw [alFind_alUpdate]
    by_cases hk : uniqueKey b = k
    · subst hk
      rw [h]
      simp
    · rw [if_neg (by simpa using hk), if_neg hk]

/-- Folding the whole row list, seen through lookup: each key's aggregate is
the `updAgg`-fold over the rows carrying that key. -/
theorem alFind_foldl_processBook (books : List BookRow)
    (acc : List (String × BookAgg)) (k : String) :
    alFind (books.foldl processBook acc) k =
      match alFind acc k with
      | some a => some ((books.filter (fun b => uniqueKey b == k)).foldl updAgg a)
      | none =>
        match books.filter (fun b => uniqueKey b == k) with
        | [] => none
        | h :: t => some (t.foldl updAgg (initAgg h)) := by
  induction books generalizing acc with
  | nil => rcases h : alFind acc k with _ | a <;> simp [h]
  | cons b bs ih =>
    rw [List.foldl_cons, ih, alFind_processBook]
    by_cases hk : uniqueKey b = k
    · rw [if_pos hk]
      rw [List.filter_cons_of_pos (by simpa using hk)]
      rcases h : alFind acc k with _ | a <;> simp
    · rw [if_neg hk]
      rw [List.filter_cons_of_neg (by simpa using hk)]

/-- Count and id-trace of an `updAgg` fold. -/
theorem foldl_updAgg_stats (t : List BookRow) (a : BookAgg) :
    (t.foldl updAgg a).recommendation_count = a.recommendation_count + t.length ∧
    (t.foldl updAgg a).recommendation_ids = a.recommendation_ids ++ t.map (·.id) := by
  induction t generalizing a with
  | nil => simp
  | cons b bs ih =>
    rw [List.foldl_cons]
    obtain ⟨h1, h2⟩ := ih (updAgg a b)
    constructor
    · rw [h1]
      simp [updAgg]
      omega
    · rw [h2]
      simp [updAgg]

/-- C3 counterexample: the script keys ISBN-less rows by the title as stored,
not lowercased, so two rows whose titles differ only in case land in two
distinct aggregates (the claim would put them in one). -/
theorem C3_counterexample :
    uniqueKey caseRowA ≠ uniqueKey caseRowB ∧
    (create_book_aggregates [caseRowA, caseRowB]).length = 2 := by decide

/-- C3 amended: `create_book_aggregates` groups rows by the first truthy
(non-null, non-empty) value among `isbn_13`/`isbn13`, `isbn_10`/`isbn10`,
`isbn`, falling back to the title exactly as stored (case-sensitive).  A row
with a truthy `isbn_13` keys by it and never by its title; each key's
aggregate folds exactly the rows carrying that key, in order, with the
recommendation count and id list tracking those rows. -/
theorem C3_grouping_behaviour :
    (∀ (b : BookRow) (s : String),
      pyOrO (metaOf b).isbn_13 (metaOf b).isbn13 = some s → truthyS s = true →
      uniqueKey b = s ∧
        ∀ t', uniqueKey { b with title := t' } = uniqueKey b) ∧
    (∀ (books : List BookRow) (k : String),
      alFind (buildMap books) k =
        match books.filter (fun b => uniqueKey b == k) with
        | [] => none
        | h :: t => some (t.foldl updAgg (initAgg h))) ∧
    (∀ (books : List BookRow) (k : String) (a : BookAgg),
      alFind (buildMap books) k = some a →
      a.recommendation_count = (books.filter (fun b => uniqueKey b == k)).length ∧
      a.recommendation_ids = (books.filter (fun b => uniqueKey b == k)).map (·.id)) := by
  have hkey : ∀ (b : BookRow) (s : String),
      pyOrO (metaOf b).isbn_13 (metaOf b).isbn13 = some s → truthyS s = true →
      uniqueKey b = s := by
    intro b s hs hts
    unfold uniqueKey
    rw [hs]
    simp [pyOrO, truthyO, hts]
  refine ⟨?_, ?_, ?_⟩
  · intro b s hs hts
    refine ⟨hkey b s hs hts, ?_⟩
    intro t'
    rw [hkey b s hs hts, hkey { b with title := t' } s hs hts]
  · intro books k
    have h := alFind_foldl_processBook books [] k
    simp only [alFind] at h
    exact h
  · intro books k a ha
    have h := alFind_foldl_processBook books [] k
    simp only [alFind] at h
    unfold buildMap at ha
    rw [ha] at h
    rcases hf : books.filter (fun b => uniqueKey b == k) with _ | ⟨hd, tl⟩ <;>
      rw [hf] at h
    · simp at h
    · dsimp only at h
      have hinj : a = tl.foldl updAgg (initAgg hd) := Option.some.inj h
      subst hinj
      obtain ⟨hc, hi⟩ := foldl_updAgg_stats tl (initAgg hd)
      constructor
      · rw [hc]
        simp only [initAgg, List.length_cons]
        omega
      · rw [hi]
        simp [initAgg]

/-- Witness for C3 at concrete rows: the ISBN-13 row keys by its ISBN
regardless of title, and the two-row case-differing-title table looks up as
the grouping theorem states. -/
theorem C3_witness :
    (uniqueKey caseRow13 = "9781455586691" ∧
      ∀ t', uniqueKey { caseRow13 with title := t' } = uniqueKey caseRow13) ∧
    (alFind (buildMap [caseRow13]) "9781455586691" =
      match [caseRow13].filter (fun b => uniqueKey b == "9781455586691") with
      | [] => none
      | h :: t => some (t.foldl updAgg (initAgg h))) ∧
    ((initAgg caseRow13).recommendation_count =
        ([caseRow13].filter (fun b => uniqueKey b == "9781455586691")).length ∧
      (initAgg caseRow13).recommendation_ids =
        ([caseRow13].filter (fun b => uniqueKey b == "9781455586691")).map (·.id)) := by
  refine ⟨C3_grouping_behaviour.1 caseRow13 "9781455586691" (by decide) (by decide),
    C3_grouping_behaviour.2.1 [caseRow13] "9781455586691",
    C3_grouping_behaviour.2.2 [caseRow13] "9781455586691" (initAgg caseRow13) ?_⟩
  decide

/-! ## Claims C1 and C2 -/

/-- A character that does not occur in a list is found at no index. -/
theorem lastIdxOf_eq_none {c : Char} : ∀ {l : List Char}, c ∉ l → lastIdxOf c l = none := by
  intro l h
  induction l with
  | nil => rfl
  | cons a rest ih =>
    simp only [List.mem_cons, not_or] at h
    obtain ⟨h1, h2⟩ := h
    have hac : (a == c) = false := by
      simp only [beq_eq_false_iff_ne]
      exact fun e => h1 e.symm
    simp [lastIdxOf, ih h2, hac]

/-- `rfind` misses on any window of a text that does not contain the needle. -/
theorem pyRfindChar_not_mem (t : List Char) (c : Char) (a b : Int) (h : c ∉ t) :
    pyRfindChar t c a b = -1 := by
  have hw : c ∉ (t.take (pyAdjIdx t.length b)).drop (pyAdjIdx t.length a) :=
    fun hc => h (List.take_subset _ _ (List.drop_subset _ _ hc))
  simp only [pyRfindChar, lastIdxOf_eq_none hw]

/-- Adjusted slice indices stay within the length. -/
theorem pyAdjIdx_le (n : Nat) (i : Int) : pyAdjIdx n i ≤ n := by
  unfold pyAdjIdx
  split <;> omega

/-- Slicing a uniform text yields a uniform text of the clamped width. -/
theorem pySlice_replicate (n : Nat) (a b : Int) :
    pySlice (List.replicate n 'a') a b =
      List.replicate (pyAdjIdx n b - pyAdjIdx n a) 'a' := by
  unfold pySlice
  rw [List.length_replicate, List.take_replicate, List.drop_replicate]
  congr 1
  have := pyAdjIdx_le n b
  omega

/-- Stripping a uniform non-whitespace text is the identity. -/
theorem pyStrip_all_a (n : Nat) : pyStrip (List.replicate n 'a') = List.replicate n 'a' := by
  have hdw : ∀ m : Nat, (List.replicate m 'a').dropWhile isPySpace = List.replicate m 'a' := by
    intro m
    cases m with
    | zero => rfl
    | succ k =>
      rw [List.replicate_succ, List.dropWhile_cons]
      simp [show isPySpace 'a' = false from by decide]
  unfold pyStrip
  rw [hdw, List.reverse_replicate, hdw, List.reverse_replicate]

/-- One chunker iteration on a text with no sentence punctuation: the cut is
always at the nominal end `start + chunkSize`. -/
theorem chunkLoop_noPunct_step (t : List Char) (cs ov fuel : Nat) (s : Int)
    (acc : List (List Char)) (hs : 0 ≤ s)
    (hp : '.' ∉ t) (hq : '?' ∉ t) (he : '!' ∉ t) :
    chunkLoop t cs ov (fuel + 1) s acc =
      if s < (t.length : Int) then
        chunkLoop t cs ov fuel
          (if s + (cs : Int) < (t.length : Int) then s + cs - ov else s + cs)
          (acc ++ [pyStrip (pySlice t s (s + cs))])
      else some acc := by
  rw [chunkLoop]
  simp only [pyRfindChar_not_mem t '.' s (s + (cs : Int)) hp,
    pyRfindChar_not_mem t '?' s (s + (cs : Int)) hq,
    pyRfindChar_not_mem t '!' s (s + (cs : Int)) he]
  have hbp : ¬ ((max (-1 : Int) (max (-1) (-1))) > s) := by
    simp only [max_self]
    omega
  simp only [gt_iff_lt, if_neg hbp, ite_self]

/-- One chunker iteration on the 250,000-character uniform transcript with
the dispatcher's chunk parameters. -/
theorem bigStep (fuel : Nat) (s : Int) (acc : List (List Char)) (hs : 0 ≤ s) :
    chunkLoop (List.replicate 250000 'a') 100000 2000 (fuel + 1) s acc =
      if s < 250000 then
        chunkLoop (List.replicate 250000 'a') 100000 2000 fuel
          (if s + 100000 < 250000 then s + 100000 - 2000 else s + 100000)
          (acc ++ [List.replicate (pyAdjIdx 250000 (s + 100000) - pyAdjIdx 250000 s) 'a'])
      else some acc := by
  have hp : '.' ∉ List.replicate 250000 'a' :=
    fun h => absurd (List.eq_of_mem_replicate h) (by decide)
  have hq : '?' ∉ List.replicate 250000 'a' :=
    fun h => absurd (List.eq_of_mem_replicate h) (by decide)
  have he : '!' ∉ List.replicate 250000 'a' :=
    fun h => absurd (List.eq_of_mem_replicate h) (by decide)
  rw [chunkLoop_noPunct_step _ _ _ _ _ _ hs hp hq he]
  rw [pySlice_replicate, pyStrip_all_a, List.length_replicate]
  norm_num [-List.reduceReplicate]

/-- The 250,000-character uniform transcript chunks into two 100,000-character
pieces and one 54,000-character piece (the 2,000-character overlaps are sent
twice). -/
theorem big_eval :
    chunk_transcript (List.replicate 250000 'a') 100000 2000 10 =
      some [List.replicate 100000 'a', List.replicate 100000 'a',
        List.replicate 54000 'a'] := by
  have hlen : (List.replicate 250000 'a').length = 250000 := List.length_replicate 250000 'a'
  unfold chunk_transcript
  rw [if_neg (by rw [hlen]; omega)]
  rw [show (10 : Nat) = 9 + 1 from rfl, bigStep 9 0 [] (by omega)]
  rw [if_pos (by omega : (0 : Int) < 250000)]
  rw [if_pos (by omega : (0 : Int) + 100000 < 250000)]
  rw [show (9 : Nat) = 8 + 1 from rfl, bigStep 8 (0 + 100000 - 2000) _ (by omega)]
  rw [if_pos (by omega : (0 : Int) + 100000 - 2000 < 250000)]
  rw [if_pos (by omega : (0 : Int) + 100000 - 2000 + 100000 < 250000)]
  rw [show (8 : Nat) = 7 + 1 from rfl, bigStep 7 (0 + 100000 - 2000 + 100000 - 2000) _ (by omega)]
  rw [if_pos (by omega : (0 : Int) + 100000 - 2000 + 100000 - 2000 < 250000)]
  rw [if_neg (by omega : ¬ ((0 : Int) + 100000 - 2000 + 100000 - 2000 + 100000 < 250000))]
  rw [show (7 : Nat) = 6 + 1 from rfl,
    bigStep 6 (0 + 100000 - 2000 + 100000 - 2000 + 100000) _ (by omega)]
  rw [if_neg (by omega : ¬ ((0 : Int) + 100000 - 2000 + 100000 - 2000 + 100000 < 250000))]
  rfl

/-- The per-chunk lengths recorded in `chunk_metadata` are the chunk
lengths. -/
theorem chunkInfos_map_length (total : Nat) :
    ∀ (pos num : Nat) (cs : List (List Char)),
      (chunkInfos total pos num cs).map (fun c => c.chunk_length) = cs.map List.length := by
  intro pos num cs
  induction cs generalizing pos num with
  | nil => rfl
  | cons c rest ih => simp [chunkInfos, ih]

/-- For a non-empty chunk list, the per-chunk aggregator returns, and its
metadata records the chunk count and the summed chunk lengths. -/
theorem from_chunks_spec (c0 : List Char) (rest : List (List Char))
    (oracle : List Char → List OracleRec) :
    ∃ recs meta,
      extract_recommendations_from_chunks (c0 :: rest) oracle = some (recs, meta) ∧
      meta.total_characters_sent = ((c0 :: rest).map List.length).sum ∧
      meta.total_chunks = (c0 :: rest).length ∧
      meta.processing_mode = none := by
  refine ⟨_, _, rfl, ?_, rfl, rfl⟩
  show ((chunkInfos (c0 :: rest).length 0 1 (c0 :: rest)).map
    (fun c => c.chunk_length)).sum = _
  rw [chunkInfos_map_length]

/-- The chunker only ever appends to its accumulator. -/
theorem chunkLoop_length_le (t : List Char) (cs ov : Nat) :
    ∀ (fuel : Nat) (s : Int) (acc r : List (List Char)),
      chunkLoop t cs ov fuel s acc = some r → acc.length ≤ r.length := by
  intro fuel
  induction fuel with
  | zero =>
    intro s acc r h
    cases h
  | succ n ih =>
    intro s acc r h
    rw [chunkLoop] at h
    split_ifs at h with hlt
    · have := ih _ _ _ h
      simp only [List.length_append, List.length_singleton] at this
      omega
    · cases h
      exact le_refl _

/-- A chunk list the chunker returns is never empty. -/
theorem chunk_transcript_ne_nil (t : List Char) (cs ov fuel : Nat)
    (r : List (List Char)) (h : chunk_transcript t cs ov fuel = some r) : r ≠ [] := by
  unfold chunk_transcript at h
  split_ifs at h with hle
  · cases h
    simp
  · match fuel, h with
    | 0, h => cases h
    | n + 1, h =>
      rw [chunkLoop] at h
      rw [if_pos (by push_cast; omega : (0 : Int) < (t.length : Int))] at h
      have hlen := chunkLoop_length_le t cs ov n _ _ _ h
      intro hr
      subst hr
      simp at hlen

/-- C2: transcripts under 100,000 characters are processed single-pass with
exactly one oracle call, `processing_mode = single_pass`, `total_chunks = 1`
and `total_characters_sent` equal to the transcript length; transcripts of
100,000 characters or more are chunked with `chunk_size = 100,000` and
`overlap = 2,000`, with one oracle call per chunk, in chunk order, and
`processing_mode = chunked`. -/
theorem C2_dispatch (t : List Char) (oracle : List Char → List OracleRec) (fuel : Nat) :
    (t.length < 100000 →
      ∃ out, extract_recommendations_smart t oracle fuel = some out ∧
        out.calls = [t] ∧ out.meta.processing_mode = some "single_pass" ∧
        out.meta.total_chunks = 1 ∧ out.meta.total_characters_sent = t.length) ∧
    (100000 ≤ t.length →
      ∀ cs, chunk_transcript t 100000 2000 fuel = some cs →
        ∃ out, extract_recommendations_smart t oracle fuel = some out ∧
          out.calls = cs ∧ out.meta.processing_mode = some "chunked" ∧
          out.meta.total_chunks = cs.length ∧
          out.meta.total_characters_sent = (cs.map List.length).sum) := by
  constructor
  · intro hlt
    rw [extract_recommendations_smart, if_pos hlt]
    exact ⟨_, rfl, rfl, rfl, rfl, rfl⟩
  · intro hge cs hcs
    rw [extract_recommendations_smart, if_neg (by omega)]
    have hne := chunk_transcript_ne_nil t 100000 2000 fuel cs hcs
    match cs, hne with
    | c0 :: rest, _ =>
      obtain ⟨recs, meta, hfc, htot, hcount, _⟩ := from_chunks_spec c0 rest oracle
      simp only [hcs, hfc]
      exact ⟨_, rfl, rfl, rfl, hcount, htot⟩

/-- Witness for C2: a two-character transcript goes single-pass; the
250,000-character uniform transcript goes chunked into the three chunks of
`big_eval`, one oracle call each. -/
theorem C2_witness :
    (∃ out, extract_recommendations_smart "ab".data (fun _ => []) 1 = some out ∧
      out.calls = ["ab".data] ∧ out.meta.processing_mode = some "single_pass" ∧
      out.meta.total_chunks = 1 ∧ out.meta.total_characters_sent = "ab".data.length) ∧
    (∃ out, extract_recommendations_smart (List.replicate 250000 'a') (fun _ => []) 10 =
        some out ∧
      out.calls = [List.replicate 100000 'a', List.replicate 100000 'a',
        List.replicate 54000 'a'] ∧
      out.meta.processing_mode = some "chunked" ∧ out.meta.total_chunks = 3 ∧
      out.meta.total_characters_sent = 254000) := by
  constructor
  · exact (C2_dispatch "ab".data (fun _ => []) 1).1 (by norm_num)
  · obtain ⟨out, hsm, hcalls, hmode, hcount, htot⟩ :=
      (C2_dispatch (List.replicate 250000 'a') (fun _ => []) 10).2
        (by rw [List.length_replicate]; omega) _ big_eval
    refine ⟨out, hsm, hcalls, hmode, by rw [hcount]; rfl, ?_⟩
    rw [htot, List.map_cons, List.map_cons, List.map_cons, List.map_nil,
      List.length_replicate, List.length_replicate]
    rfl

/-- C1 counterexample: in chunked mode `totalCharactersSent` is the sum of
the chunk lengths, but because adjacent chunks overlap by 2,000 characters
that sum is 254,000 for a 250,000-character transcript — it does not equal
the source transcript length. -/
theorem C1_counterexample :
    ((extract_recommendations_smart (List.replicate 250000 'a') (fun _ => []) 10).map
      (fun out => out.meta.total_characters_sent)) = some 254000 ∧
    ((extract_recommendations_smart (List.replicate 250000 'a') (fun _ => []) 10).map
      (fun out => out.meta.processing_mode)) = some (some "chunked") ∧
    (List.replicate 250000 'a').length = 250000 ∧ (254000 : Nat) ≠ 250000 := by
  obtain ⟨out, hsm, _, hmode, _, htot⟩ :=
    (C2_dispatch (List.replicate 250000 'a') (fun _ => []) 10).2
      (by rw [List.length_replicate]; omega) _ big_eval
  rw [hsm]
  refine ⟨?_, ?_, List.length_replicate 250000 'a', by norm_num⟩
  · rw [Option.map_some']
    rw [htot, List.map_cons, List.map_cons, List.map_cons, List.map_nil,
      List.length_replicate, List.length_replicate]
    rfl
  · rw [Option.map_some', hmode]

/-- C1 amended: for every non-empty chunk list handed to the per-chunk
aggregator, the recorded `totalCharactersSent` equals the sum of the chunk
lengths (the coverage identity against the source transcript length fails,
see `C1_counterexample`). -/
theorem C1_total_chars_is_chunk_sum (chunks : List (List Char))
    (oracle : List Char → List OracleRec) (hne : chunks ≠ []) :
    ∃ recs meta,
      extract_recommendations_from_chunks chunks oracle = some (recs, meta) ∧
      meta.total_characters_sent = (chunks.map List.length).sum := by
  match chunks, hne with
  | c0 :: rest, _ =>
    obtain ⟨recs, meta, hfc, htot, _, _⟩ := from_chunks_spec c0 rest oracle
    exact ⟨recs, meta, hfc, htot⟩

/-- Witness for C1 on a concrete two-chunk list: the recorded character count
is the summed chunk lengths. -/
theorem C1_witness :
    ∃ recs meta,
      extract_recommendations_from_chunks ["ab".data, "cde".data] (fun _ => []) =
        some (recs, meta) ∧
      meta.total_characters_sent = 5 := by
  obtain ⟨recs, meta, hfc, htot⟩ :=
    C1_total_chars_is_chunk_sum ["ab".data, "cde".data] (fun _ => []) (by simp)
  exact ⟨recs, meta, hfc, by rw [htot]; rfl⟩

end PodcastRecs
